import Mathlib

/-!
Shallow embedding of the terraform-provider-kind core:
the generic attribute-value model and map getters (`utils.go`),
the configuration flatteners (`kind_cluster_config.go`),
the TOML normalization helper (`utils.go`), and
the cluster resource lifecycle controller (`kind_cluster.go`):
create with bounded retry, delete with a timeout race and
best-effort kubeconfig context cleanup.
-/

namespace TPKind

/-! ## Generic Go values (the `any` values produced by the attribute tree decoder) -/

/-- A dynamic Go value as seen by the flatteners: `null` models Go `nil`,
`other` models any dynamic type the getters do not recognize (floats, etc.).
Go `map[string]any` is modelled as an association list. -/
inductive GoValue where
  | null : GoValue
  | str : String → GoValue
  | int : Int → GoValue
  | bool : Bool → GoValue
  | list : List GoValue → GoValue
  | map : List (String × GoValue) → GoValue
  | other : GoValue

/-- A Go `map[string]any` value. -/
abbrev GoMap := List (String × GoValue)

/-- `getString`: safely extracts a string from a map, returning `""` if the key
is missing, the value is nil, or the value is not a string. -/
def getString (m : GoMap) (key : String) : String :=
  match m.lookup key with
  | some (GoValue.str s) => s
  | _ => ""

/-- `getInt`: safely extracts an int from a map, returning `0` if the key is
missing, the value is nil, or the value is not an int. -/
def getInt (m : GoMap) (key : String) : Int :=
  match m.lookup key with
  | some (GoValue.int i) => i
  | _ => 0

/-- `getBool`: safely extracts a bool from a map, returning `false` otherwise. -/
def getBool (m : GoMap) (key : String) : Bool :=
  match m.lookup key with
  | some (GoValue.bool b) => b
  | _ => false

/-- `getStringSlice`: extracts a `[]string`, keeping only string elements of a
slice value; `none` models the Go `nil` slice returned when the key is missing
or the value is not a slice. -/
def getStringSlice (m : GoMap) (key : String) : Option (List String) :=
  match m.lookup key with
  | some (GoValue.list l) =>
      some (l.filterMap fun v =>
        match v with
        | GoValue.str s => some s
        | _ => none)
  | _ => none

/-- `getMapSlice`: extracts a `[]map[string]any`, keeping only map elements of a
slice value; `none` models the Go `nil` result. -/
def getMapSlice (m : GoMap) (key : String) : Option (List GoMap) :=
  match m.lookup key with
  | some (GoValue.list l) =>
      some (l.filterMap fun v =>
        match v with
        | GoValue.map im => some im
        | _ => none)
  | _ => none

/-- `getStringMap`: extracts a `map[string]string`, keeping only entries of a
map value whose values are strings; `none` models the Go `nil` result. -/
def getStringMap (m : GoMap) (key : String) : Option (List (String × String)) :=
  match m.lookup key with
  | some (GoValue.map im) =>
      some (im.filterMap fun kv =>
        match kv.2 with
        | GoValue.str s => some (kv.1, s)
        | _ => none)
  | _ => none

/-! ## The typed cluster specification (`sigs.k8s.io/kind` v1alpha4 types).
The v1alpha4 enum types are Go string types; they are modelled as `String`,
whose zero value is `""`. -/

/-- v1alpha4.Mount. -/
structure Mount where
  containerPath : String
  hostPath : String
  readonly : Bool
  selinuxRelabel : Bool
  propagation : String
deriving DecidableEq, Repr

/-- v1alpha4.PortMapping. The port fields are Go `int32` after a validated
range check; modelled as `Int` carrying the checked value. -/
structure PortMapping where
  containerPort : Int
  hostPort : Int
  listenAddress : String
  protocol : String
deriving DecidableEq, Repr

/-- v1alpha4.Node. `none` on a slice/map field models the Go `nil` value. -/
structure Node where
  role : String
  image : String
  labels : Option (List (String × String))
  extraMounts : List Mount
  extraPortMappings : List PortMapping
  kubeadmConfigPatches : Option (List String)
deriving DecidableEq, Repr

/-- v1alpha4.Networking. -/
structure Networking where
  apiServerAddress : String
  apiServerPort : Int
  disableDefaultCNI : Bool
  ipFamily : String
  kubeProxyMode : String
  podSubnet : String
  serviceSubnet : String
  dnsSearch : Option (List String)
deriving DecidableEq, Repr

/-- v1alpha4.Cluster. -/
structure Cluster where
  kind : String
  apiVersion : String
  nodes : List Node
  networking : Networking
  containerdConfigPatches : Option (List String)
  runtimeConfig : Option (List (String × String))
  featureGates : Option (List (String × Bool))
deriving DecidableEq, Repr

/-- The Go zero value of `v1alpha4.Mount`. -/
def emptyMount : Mount :=
  { containerPath := "", hostPath := "", readonly := false,
    selinuxRelabel := false, propagation := "" }

/-- The Go zero value of `v1alpha4.PortMapping`. -/
def emptyPortMapping : PortMapping :=
  { containerPort := 0, hostPort := 0, listenAddress := "", protocol := "" }

/-- The Go zero value of `v1alpha4.Node`. -/
def emptyNode : Node :=
  { role := "", image := "", labels := none, extraMounts := [],
    extraPortMappings := [], kubeadmConfigPatches := none }

/-- The Go zero value of `v1alpha4.Networking`. -/
def emptyNetworking : Networking :=
  { apiServerAddress := "", apiServerPort := 0, disableDefaultCNI := false,
    ipFamily := "", kubeProxyMode := "", podSubnet := "", serviceSubnet := "",
    dnsSearch := none }

/-! ## Flatteners (`kind_cluster_config.go`) -/

/-- `math.MinInt32`. -/
def int32Min : Int := -2147483648

/-- `math.MaxInt32`. -/
def int32Max : Int := 2147483647

/-- `ErrPortOutOfRange.Error()`. -/
def errPortOutOfRangeMsg : String := "port value out of valid range"

/-- The wrapped error text produced by
`fmt.Errorf("<field> value %d (must be between %d and %d): %w", v, math.MinInt32, math.MaxInt32, ErrPortOutOfRange)`. -/
def portRangeErrMsg (field : String) (v : Int) : String :=
  s!"{field} value {v} (must be between {int32Min} and {int32Max}): {errPortOutOfRangeMsg}"

/-- The node-role switch in `flattenKindConfigNodes`: the `role != ""` guard
plus the two-case switch; every non-matching string (including `""`) leaves the
role at its zero value. -/
def flattenRole (role : String) : String :=
  if role = "control-plane" then "control-plane"
  else if role = "worker" then "worker"
  else ""

/-- The propagation switch in `flattenKindConfigExtraMounts`. -/
def flattenPropagation (p : String) : String :=
  if p = "Bidirectional" then "Bidirectional"
  else if p = "HostToContainer" then "HostToContainer"
  else if p = "None" then "None"
  else ""

/-- The protocol switch in `flattenKindConfigExtraPortMappings`. -/
def flattenProtocol (p : String) : String :=
  if p = "SCTP" then "SCTP"
  else if p = "TCP" then "TCP"
  else if p = "UDP" then "UDP"
  else ""

/-- The ip-family switch in `flattenKindConfigNetworking`. -/
def flattenIPFamily (f : String) : String :=
  if f = "ipv4" then "ipv4"
  else if f = "ipv6" then "ipv6"
  else if f = "dual" then "dual"
  else ""

/-- The kube-proxy-mode switch in `flattenKindConfigNetworking`. -/
def flattenKubeProxyMode (m : String) : String :=
  if m = "iptables" then "iptables"
  else if m = "ipvs" then "ipvs"
  else if m = "none" then "none"
  else ""

/-- `flattenKindConfigExtraMounts`: converts a map representation of mount
configuration to `v1alpha4.Mount`. Never fails. -/
def flattenKindConfigExtraMounts (mountConfig : GoMap) : Mount :=
  { containerPath := getString mountConfig "container_path"
    hostPath := getString mountConfig "host_path"
    readonly := getBool mountConfig "read_only"
    selinuxRelabel := getBool mountConfig "selinux_relabel"
    propagation := flattenPropagation (getString mountConfig "propagation") }

/-- `flattenKindConfigExtraPortMappings`: converts a map representation of a
port mapping to `v1alpha4.PortMapping`; a nonzero port outside the signed
32-bit range is a fatal error. -/
def flattenKindConfigExtraPortMappings (portMappingConfig : GoMap) :
    Except String PortMapping :=
  let obj := { emptyPortMapping with
                 listenAddress := getString portMappingConfig "listen_address" }
  let containerPort := getInt portMappingConfig "container_port"
  if containerPort ≠ 0 ∧ (containerPort < int32Min ∨ containerPort > int32Max) then
    Except.error (portRangeErrMsg "container_port" containerPort)
  else
    let obj := if containerPort ≠ 0 then { obj with containerPort := containerPort } else obj
    let hostPort := getInt portMappingConfig "host_port"
    if hostPort ≠ 0 ∧ (hostPort < int32Min ∨ hostPort > int32Max) then
      Except.error (portRangeErrMsg "host_port" hostPort)
    else
      let obj := if hostPort ≠ 0 then { obj with hostPort := hostPort } else obj
      let obj := { obj with
                     protocol := flattenProtocol (getString portMappingConfig "protocol") }
      Except.ok obj

/-- `flattenKindConfigNodes`: converts a map representation of node
configuration to `v1alpha4.Node`; a port-mapping error is wrapped and
propagated. -/
def flattenKindConfigNodes (nodeConfig : GoMap) : Except String Node := do
  let obj := { emptyNode with role := flattenRole (getString nodeConfig "role") }
  let obj := if getString nodeConfig "image" ≠ "" then
               { obj with image := getString nodeConfig "image" }
             else obj
  let obj := { obj with
                 extraMounts :=
                   ((getMapSlice nodeConfig "extra_mounts").getD []).map
                     flattenKindConfigExtraMounts }
  let obj := match getStringMap nodeConfig "labels" with
             | some labels => { obj with labels := some labels }
             | none => obj
  let portMappings ←
    ((getMapSlice nodeConfig "extra_port_mappings").getD []).mapM fun pm =>
      match flattenKindConfigExtraPortMappings pm with
      | Except.error e =>
          Except.error ("failed to flatten port mapping configuration: " ++ e)
      | Except.ok v => Except.ok v
  let obj := { obj with extraPortMappings := portMappings }
  let obj := { obj with
                 kubeadmConfigPatches := getStringSlice nodeConfig "kubeadm_config_patches" }
  return obj

/-- `flattenKindConfigNetworking`: converts a map representation of networking
configuration to `v1alpha4.Networking`; a nonzero `api_server_port` outside the
signed 32-bit range is a fatal error. -/
def flattenKindConfigNetworking (networkingConfig : GoMap) :
    Except String Networking :=
  let obj := { emptyNetworking with
                 apiServerAddress := getString networkingConfig "api_server_address"
                 disableDefaultCNI := getBool networkingConfig "disable_default_cni" }
  let port := getInt networkingConfig "api_server_port"
  if port ≠ 0 ∧ (port < int32Min ∨ port > int32Max) then
    Except.error (portRangeErrMsg "api_server_port" port)
  else
    let obj := if port ≠ 0 then { obj with apiServerPort := port } else obj
    let obj := { obj with
                   ipFamily := flattenIPFamily (getString networkingConfig "ip_family")
                   kubeProxyMode :=
                     flattenKubeProxyMode (getString networkingConfig "kube_proxy_mode")
                   podSubnet := getString networkingConfig "pod_subnet"
                   serviceSubnet := getString networkingConfig "service_subnet"
                   dnsSearch := getStringSlice networkingConfig "dns_search" }
    Except.ok obj

/-- `strings.ReplaceAll(k, "_", "/")`: for a single-character pattern and
replacement this is exactly a character-wise map. -/
def replaceUnderscores (s : String) : String :=
  ⟨s.data.map fun c => if c = '_' then '/' else c⟩

/-- ASCII lowering of one character. -/
def asciiLower (c : Char) : Char :=
  if 65 ≤ c.toNat ∧ c.toNat ≤ 90 then Char.ofNat (c.toNat + 32) else c

/-- `strings.EqualFold(v, "true")`: case-insensitive equality with `"true"`.
Since no character outside ASCII case-folds to `t`, `r`, `u` or `e`, this is
exactly equality of the ASCII-lowered character sequence with `true`. -/
def eqFoldTrue (v : String) : Bool :=
  v.data.map asciiLower == "true".data

/-- `flattenKindConfig`: converts a map representation of kind configuration to
`v1alpha4.Cluster`, wrapping and propagating node/networking errors. -/
def flattenKindConfig (kindConfig : GoMap) : Except String Cluster := do
  let kind := getString kindConfig "kind"
  let apiVersion := getString kindConfig "api_version"
  let nodes ←
    ((getMapSlice kindConfig "node").getD []).mapM fun nodeMap =>
      match flattenKindConfigNodes nodeMap with
      | Except.error e =>
          Except.error ("failed to flatten node configuration: " ++ e)
      | Except.ok v => Except.ok v
  let networking ←
    match getMapSlice kindConfig "networking" with
    | some (n :: _) =>
        match flattenKindConfigNetworking n with
        | Except.error e =>
            Except.error ("failed to flatten networking configuration: " ++ e)
        | Except.ok v => Except.ok v
    | _ => Except.ok emptyNetworking
  let runtimeConfig :=
    (getStringMap kindConfig "runtime_config").map fun rc =>
      rc.map fun kv => (replaceUnderscores kv.1, kv.2)
  let featureGates :=
    (getStringMap kindConfig "feature_gates").map fun fg =>
      fg.map fun kv => (kv.1, eqFoldTrue kv.2)
  return { kind := kind
           apiVersion := apiVersion
           nodes := nodes
           networking := networking
           containerdConfigPatches := getStringSlice kindConfig "containerd_config_patches"
           runtimeConfig := runtimeConfig
           featureGates := featureGates }

/-- The Go zero value of `v1alpha4.Cluster`. -/
def emptyCluster : Cluster :=
  { kind := "", apiVersion := "", nodes := [], networking := emptyNetworking,
    containerdConfigPatches := none, runtimeConfig := none, featureGates := none }

/-! ## Helper lemmas about the getters -/

theorem getStringMap_of_strings (key : String) (l : List (String × String)) :
    getStringMap [(key, GoValue.map (l.map fun kv => (kv.1, GoValue.str kv.2)))] key =
      some l := by
  simp [getStringMap, List.lookup, List.filterMap_map]
  exact List.filterMap_some l

/-- Undoing the underscore-to-slash character map on slash-free strings. -/
theorem map_underscore_inv (l : List Char) (h : '/' ∉ l) :
    (l.map fun c => if c = '_' then '/' else c).map
        (fun c => if c = '/' then '_' else c) = l := by
  induction l with
  | nil => simp
  | cons c t ih =>
      simp only [List.mem_cons, not_or] at h
      simp only [List.map_cons, List.map_map, Function.comp]
      congr 1
      · by_cases hc : c = '_'
        · simp [hc]
        · simp only [if_neg hc]
          rw [if_neg]
          exact fun hcs => h.1 hcs.symm
      · have := ih h.2
        simpa [List.map_map, Function.comp] using this

/-- Claim C4: a `container_port`, `host_port`, or `api_server_port` integer value
inside the signed 32-bit range (boundaries included) is accepted and stored
exactly, while a value outside that range makes flattening return a fatal
`PortOutOfRange` error, wrapped with a field-and-value-identifying message,
that aborts normalization and propagates up through `flattenKindConfig`. -/
theorem c4_port_int32_range (n : Int) :
    (int32Min ≤ n ∧ n ≤ int32Max →
      (∃ pm, flattenKindConfigExtraPortMappings [("container_port", GoValue.int n)] =
          Except.ok pm ∧ pm.containerPort = n) ∧
      (∃ pm, flattenKindConfigExtraPortMappings [("host_port", GoValue.int n)] =
          Except.ok pm ∧ pm.hostPort = n) ∧
      (∃ nw, flattenKindConfigNetworking [("api_server_port", GoValue.int n)] =
          Except.ok nw ∧ nw.apiServerPort = n)) ∧
    (n < int32Min ∨ n > int32Max →
      flattenKindConfigExtraPortMappings [("container_port", GoValue.int n)] =
        Except.error (portRangeErrMsg "container_port" n) ∧
      flattenKindConfigExtraPortMappings [("host_port", GoValue.int n)] =
        Except.error (portRangeErrMsg "host_port" n) ∧
      flattenKindConfigNetworking [("api_server_port", GoValue.int n)] =
        Except.error (portRangeErrMsg "api_server_port" n) ∧
      flattenKindConfig [("node", GoValue.list [GoValue.map
          [("extra_port_mappings", GoValue.list
            [GoValue.map [("container_port", GoValue.int n)]])]])] =
        Except.error
          ("failed to flatten node configuration: failed to flatten port mapping configuration: "
            ++ portRangeErrMsg "container_port" n) ∧
      flattenKindConfig
          [("networking", GoValue.list [GoValue.map [("api_server_port", GoValue.int n)]])] =
        Except.error
          ("failed to flatten networking configuration: " ++ portRangeErrMsg "api_server_port" n)) := by
  constructor
  · intro h
    refine ⟨?_, ?_, ?_⟩
    · unfold flattenKindConfigExtraPortMappings
      simp only [int32Min, int32Max] at h
      simp [getInt, getString, List.lookup, int32Min, int32Max]
      by_cases hn : n = 0
      · subst hn
        simp [emptyPortMapping]
      · rw [if_neg (by omega)]
        simp [hn, emptyPortMapping]
    · unfold flattenKindConfigExtraPortMappings
      simp only [int32Min, int32Max] at h
      simp [getInt, getString, List.lookup, int32Min, int32Max]
      by_cases hn : n = 0
      · subst hn
        simp [emptyPortMapping]
      · rw [if_neg (by omega)]
        simp [hn, emptyPortMapping]
    · unfold flattenKindConfigNetworking
      simp only [int32Min, int32Max] at h
      simp [getInt, getString, getBool, getStringSlice, List.lookup, int32Min, int32Max]
      by_cases hn : n = 0
      · subst hn
        simp [emptyNetworking]
      · rw [if_neg (by omega)]
        simp [hn, emptyNetworking]
  · intro h
    refine ⟨?_, ?_, ?_, ?_, ?_⟩
    · unfold flattenKindConfigExtraPortMappings
      simp [getInt, getString, List.lookup, int32Min, int32Max] at *
      omega
    · unfold flattenKindConfigExtraPortMappings
      simp [getInt, getString, List.lookup, int32Min, int32Max] at *
      omega
    · unfold flattenKindConfigNetworking
      simp [getInt, getString, getBool, getStringSlice, List.lookup, int32Min, int32Max] at *
      omega
    · unfold flattenKindConfig flattenKindConfigNodes flattenKindConfigExtraPortMappings
      simp [getInt, getString, getMapSlice, getStringMap, getStringSlice, List.lookup,
        List.mapM, List.mapM.loop, Except.bind, Bind.bind, Except.pure, Pure.pure,
        int32Min, int32Max] at *
      rw [if_pos (by omega)]
      rfl
    · unfold flattenKindConfig flattenKindConfigNetworking
      simp [getInt, getString, getBool, getMapSlice, getStringMap, getStringSlice, List.lookup,
        List.mapM, List.mapM.loop, Except.bind, Bind.bind, Except.pure, Pure.pure,
        int32Min, int32Max] at *
      rw [if_pos (by omega)]

/-- Witness for claim C4 at the boundary values: `2147483647` is accepted and
stored exactly, `2147483648` is rejected with the range error. -/
theorem c4_port_int32_range_witness :
    (int32Min ≤ (2147483647 : Int) ∧ (2147483647 : Int) ≤ int32Max) ∧
    (∃ pm, flattenKindConfigExtraPortMappings
        [("container_port", GoValue.int 2147483647)] = Except.ok pm ∧
        pm.containerPort = 2147483647) ∧
    ((2147483648 : Int) < int32Min ∨ (2147483648 : Int) > int32Max) ∧
    flattenKindConfigExtraPortMappings [("container_port", GoValue.int 2147483648)] =
      Except.error (portRangeErrMsg "container_port" 2147483648) := by
  have hin : int32Min ≤ (2147483647 : Int) ∧ (2147483647 : Int) ≤ int32Max := by decide
  have hout : (2147483648 : Int) < int32Min ∨ (2147483648 : Int) > int32Max :=
    Or.inr (by decide)
  have h1 := (c4_port_int32_range 2147483647).1 hin
  have h2 := (c4_port_int32_range 2147483648).2 hout
  exact ⟨hin, h1.1, hout, h2.1⟩

/-- Claim C5: for every enum-mapped field (node role, mount propagation, port
protocol, ip family, kube-proxy mode), each member of the fixed allow-list
(matched case-sensitively) maps to its corresponding typed enum value, and any
string outside the allow-list leaves the field at its zero value with no error
surfaced from the flattening function. -/
theorem c5_enum_allowlists (s : String) :
    (flattenKindConfigNodes [("role", GoValue.str s)] =
        Except.ok { emptyNode with role := flattenRole s } ∧
      flattenRole "control-plane" = "control-plane" ∧
      flattenRole "worker" = "worker" ∧
      (s ≠ "control-plane" → s ≠ "worker" → flattenRole s = "")) ∧
    (flattenKindConfigExtraMounts [("propagation", GoValue.str s)] =
        { emptyMount with propagation := flattenPropagation s } ∧
      flattenPropagation "None" = "None" ∧
      flattenPropagation "HostToContainer" = "HostToContainer" ∧
      flattenPropagation "Bidirectional" = "Bidirectional" ∧
      (s ≠ "None" → s ≠ "HostToContainer" → s ≠ "Bidirectional" →
        flattenPropagation s = "")) ∧
    (flattenKindConfigExtraPortMappings [("protocol", GoValue.str s)] =
        Except.ok { emptyPortMapping with protocol := flattenProtocol s } ∧
      flattenProtocol "TCP" = "TCP" ∧
      flattenProtocol "UDP" = "UDP" ∧
      flattenProtocol "SCTP" = "SCTP" ∧
      (s ≠ "TCP" → s ≠ "UDP" → s ≠ "SCTP" → flattenProtocol s = "")) ∧
    (flattenKindConfigNetworking
        [("ip_family", GoValue.str s), ("kube_proxy_mode", GoValue.str s)] =
        Except.ok { emptyNetworking with
                      ipFamily := flattenIPFamily s
                      kubeProxyMode := flattenKubeProxyMode s } ∧
      flattenIPFamily "ipv4" = "ipv4" ∧
      flattenIPFamily "ipv6" = "ipv6" ∧
      flattenIPFamily "dual" = "dual" ∧
      (s ≠ "ipv4" → s ≠ "ipv6" → s ≠ "dual" → flattenIPFamily s = "") ∧
      flattenKubeProxyMode "iptables" = "iptables" ∧
      flattenKubeProxyMode "ipvs" = "ipvs" ∧
      flattenKubeProxyMode "none" = "none" ∧
      (s ≠ "iptables" → s ≠ "ipvs" → s ≠ "none" → flattenKubeProxyMode s = "")) := by
  refine ⟨⟨?_, rfl, rfl, ?_⟩, ⟨?_, rfl, rfl, rfl, ?_⟩, ⟨?_, rfl, rfl, rfl, ?_⟩,
    ⟨?_, rfl, rfl, rfl, ?_, rfl, rfl, rfl, ?_⟩⟩
  · unfold flattenKindConfigNodes
    simp [getString, getBool, getInt, getMapSlice, getStringMap, getStringSlice, List.lookup,
      List.mapM, List.mapM.loop, Except.bind, Bind.bind, Except.pure, Pure.pure, emptyNode]
  · intro h1 h2
    simp [flattenRole, h1, h2]
  · unfold flattenKindConfigExtraMounts
    simp [getString, getBool, List.lookup, emptyMount]
  · intro h1 h2 h3
    simp [flattenPropagation, h1, h2, h3]
  · unfold flattenKindConfigExtraPortMappings
    simp [getString, getInt, List.lookup, int32Min, int32Max, emptyPortMapping]
  · intro h1 h2 h3
    simp [flattenProtocol, h1, h2, h3]
  · unfold flattenKindConfigNetworking
    simp [getString, getInt, getBool, getStringSlice, List.lookup, int32Min, int32Max,
      emptyNetworking]
  · intro h1 h2 h3
    simp [flattenIPFamily, h1, h2, h3]
  · intro h1 h2 h3
    simp [flattenKubeProxyMode, h1, h2, h3]

/-- Witness for claim C5 at a string outside every allow-list: `"bogus"` leaves
every enum field at its zero value with no error. -/
theorem c5_enum_allowlists_witness :
    flattenKindConfigNodes [("role", GoValue.str "bogus")] =
      Except.ok { emptyNode with role := flattenRole "bogus" } ∧
    flattenRole "bogus" = "" ∧
    flattenPropagation "bogus" = "" ∧
    flattenProtocol "bogus" = "" ∧
    flattenIPFamily "bogus" = "" ∧
    flattenKubeProxyMode "bogus" = "" := by
  have h := c5_enum_allowlists "bogus"
  refine ⟨h.1.1, ?_, ?_, ?_, ?_, ?_⟩
  · exact h.1.2.2.2 (by decide) (by decide)
  · exact h.2.1.2.2.2.2 (by decide) (by decide) (by decide)
  · exact h.2.2.1.2.2.2.2 (by decide) (by decide) (by decide)
  · exact h.2.2.2.2.2.2.2.1 (by decide) (by decide) (by decide)
  · exact h.2.2.2.2.2.2.2.2.2.2.2 (by decide) (by decide) (by decide)

/-- Claim C6: every `runtime_config` key is stored with each underscore replaced
by a forward slash while its value is unchanged; `"api_alpha"` is stored as
`"api/alpha"`; two distinct underscore-separated (slash-free) keys produce two
distinct slash-separated stored keys. -/
theorem c6_runtime_config_keys (rc : List (String × String)) (k1 k2 : String) :
    flattenKindConfig
        [("runtime_config", GoValue.map (rc.map fun kv => (kv.1, GoValue.str kv.2)))] =
      Except.ok { emptyCluster with
                    runtimeConfig := some (rc.map fun kv => (replaceUnderscores kv.1, kv.2)) } ∧
    replaceUnderscores "api_alpha" = "api/alpha" ∧
    ('/' ∉ k1.data → '/' ∉ k2.data → k1 ≠ k2 →
      replaceUnderscores k1 ≠ replaceUnderscores k2) := by
  refine ⟨?_, by decide, ?_⟩
  · unfold flattenKindConfig
    rw [getStringMap_of_strings]
    simp [getString, getMapSlice, getStringSlice, getStringMap, List.lookup,
      List.mapM, List.mapM.loop, Except.bind, Bind.bind, Except.pure, Pure.pure,
      emptyCluster]
  · intro h1 h2 hne heq
    apply hne
    unfold replaceUnderscores at heq
    have hdata : k1.data.map (fun c => if c = '_' then '/' else c) =
        k2.data.map (fun c => if c = '_' then '/' else c) := by
      exact congrArg String.data heq
    have : k1.data = k2.data := by
      rw [← map_underscore_inv k1.data h1, hdata, map_underscore_inv k2.data h2]
    cases k1
    cases k2
    exact congrArg String.mk this

/-- Witness for claim C6: the distinct underscore-separated keys `"api_alpha"`
and `"api_beta"` produce distinct slash-separated stored keys. -/
theorem c6_runtime_config_keys_witness :
    ('/' ∉ "api_alpha".data ∧ '/' ∉ "api_beta".data ∧ "api_alpha" ≠ "api_beta") ∧
    replaceUnderscores "api_alpha" ≠ replaceUnderscores "api_beta" := by
  have h := (c6_runtime_config_keys [] "api_alpha" "api_beta").2.2
    (by decide) (by decide) (by decide)
  exact ⟨⟨by decide, by decide, by decide⟩, h⟩

/-- Claim C7: every `feature_gates` value equal to `"true"` under
case-insensitive comparison normalizes to boolean `true`, and every other value
normalizes to `false`, with no error raised for unparseable values. -/
theorem c7_feature_gates_fold (fg : List (String × String)) (v : String) :
    flattenKindConfig
        [("feature_gates", GoValue.map (fg.map fun kv => (kv.1, GoValue.str kv.2)))] =
      Except.ok { emptyCluster with
                    featureGates := some (fg.map fun kv => (kv.1, eqFoldTrue kv.2)) } ∧
    eqFoldTrue "true" = true ∧
    eqFoldTrue "True" = true ∧
    eqFoldTrue "TRUE" = true ∧
    eqFoldTrue "false" = false ∧
    eqFoldTrue "yes" = false ∧
    (v.data.map asciiLower ≠ "true".data → eqFoldTrue v = false) := by
  refine ⟨?_, by decide, by decide, by decide, by decide, by decide, ?_⟩
  · unfold flattenKindConfig
    rw [getStringMap_of_strings]
    simp [getString, getMapSlice, getStringSlice, getStringMap, List.lookup,
      List.mapM, List.mapM.loop, Except.bind, Bind.bind, Except.pure, Pure.pure,
      emptyCluster]
  · intro h
    simp [eqFoldTrue, h]

/-- Witness for claim C7: the unparseable value `"yes"` silently normalizes to
`false`. -/
theorem c7_feature_gates_fold_witness :
    "yes".data.map asciiLower ≠ "true".data ∧ eqFoldTrue "yes" = false := by
  have h := (c7_feature_gates_fold [] "yes").2.2.2.2.2.2 (by decide)
  exact ⟨by decide, h⟩

/-! ## TOML normalization (`utils.go`, `normalizeToml`).
The TOML library (`github.com/pelletier/go-toml`) is an external dependency,
modelled as an abstract parser/serializer pair over an abstract document type;
`normalizeToml` itself is translated from the source control flow. -/

/-- The `toml.Load` / `tree.ToTomlString` pair of the external TOML library. -/
structure TomlLib (Tree : Type) where
  load : String → Except String Tree
  toTomlString : Tree → Except String String

/-- `normalizeToml`: returns `("", nil)` for nil, non-string, or empty-string
input; on parse or serialize failure returns the original string together with
a wrapped error; otherwise returns the re-serialized document. -/
def normalizeToml {Tree : Type} (lib : TomlLib Tree) (tomlString : GoValue) :
    String × Option String :=
  match tomlString with
  | GoValue.str s =>
      if s = "" then ("", none)
      else
        match lib.load s with
        | Except.error e => (s, some ("failed to parse TOML: " ++ e))
        | Except.ok tree =>
            match lib.toTomlString tree with
            | Except.error e => (s, some ("failed to serialize TOML: " ++ e))
            | Except.ok result => (result, none)
  | _ => ("", none)

/-- Claim C8: `normalizeToml` returns `("", nil)` for every nil, empty-string,
or non-string input; and for every string input that fails to parse it returns
the original input string unmodified together with a non-nil wrapped error. -/
theorem c8_normalize_toml_total {Tree : Type} (lib : TomlLib Tree)
    (v : GoValue) (s e : String) :
    ((∀ t : String, v ≠ GoValue.str t) → normalizeToml lib v = ("", none)) ∧
    normalizeToml lib (GoValue.str "") = ("", none) ∧
    (s ≠ "" → lib.load s = Except.error e →
      normalizeToml lib (GoValue.str s) = (s, some ("failed to parse TOML: " ++ e))) := by
  refine ⟨?_, rfl, ?_⟩
  · intro h
    cases v with
    | null => rfl
    | str t => exact absurd rfl (h t)
    | int i => rfl
    | bool b => rfl
    | list l => rfl
    | map m => rfl
    | other => rfl
  · intro hs hload
    simp only [normalizeToml]
    rw [if_neg hs, hload]

/-- Witness for claim C8: nil input and an always-failing parser at `"x"`. -/
theorem c8_normalize_toml_total_witness :
    @normalizeToml Unit ⟨fun _ => Except.error "bad", fun _ => Except.ok ""⟩
        GoValue.null = ("", none) ∧
    @normalizeToml Unit ⟨fun _ => Except.error "bad", fun _ => Except.ok ""⟩
        (GoValue.str "x") =
      ("x", some ("failed to parse TOML: " ++ "bad")) := by
  have h := @c8_normalize_toml_total Unit
    ⟨fun _ => Except.error "bad", fun _ => Except.ok ""⟩ GoValue.null "x" "bad"
  exact ⟨h.1 (fun t hc => by cases hc), h.2.2 (by decide) rfl⟩

/-- Claim C9: `normalizeToml` is idempotent on already-canonical input, given
the library's canonical-serialization round-trip law (serializing a parsed
document and re-parsing the output recovers the same document). -/
theorem c9_normalize_toml_idempotent {Tree : Type} (lib : TomlLib Tree)
    (hround : ∀ (t : Tree) (c : String),
      lib.toTomlString t = Except.ok c → lib.load c = Except.ok t)
    (s c : String)
    (h : normalizeToml lib (GoValue.str s) = (c, none)) :
    normalizeToml lib (GoValue.str c) = (c, none) := by
  simp only [normalizeToml] at h ⊢
  by_cases hs : s = ""
  · rw [if_pos hs] at h
    have hc : c = "" := (congrArg Prod.fst h).symm
    rw [if_pos hc, hc]
  · rw [if_neg hs] at h
    cases hload : lib.load s with
    | error e => simp only [hload] at h; simp at h
    | ok t =>
        simp only [hload] at h
        cases hser : lib.toTomlString t with
        | error e => simp only [hser] at h; simp at h
        | ok r =>
            simp only [hser] at h
            have hr : r = c := congrArg Prod.fst h
            subst hr
            by_cases hc : r = ""
            · rw [if_pos hc]
              exact congrArg (fun x => (x, (none : Option String))) hc.symm
            · rw [if_neg hc]
              simp only [hround t r hser, hser]

/-- Witness for claim C9: a concrete library satisfying the round-trip law, on
which normalizing the canonical output `"x"` is a fixed point. -/
theorem c9_normalize_toml_idempotent_witness :
    @normalizeToml Unit ⟨fun _ => Except.ok (), fun _ => Except.ok "x"⟩
        (GoValue.str "a") = ("x", none) ∧
    @normalizeToml Unit ⟨fun _ => Except.ok (), fun _ => Except.ok "x"⟩
        (GoValue.str "x") = ("x", none) := by
  refine ⟨rfl, ?_⟩
  exact @c9_normalize_toml_idempotent Unit
    ⟨fun _ => Except.ok (), fun _ => Except.ok "x"⟩
    (fun t c hc => rfl) "a" "x" rfl

/-! ## Lifecycle controller (`kind_cluster.go`) -/

/-- `maxRetries`: the maximum number of retry attempts for cluster creation. -/
def maxRetries : Nat := 2

/-- `retryDelay` (5 seconds), in seconds. -/
def retryDelaySeconds : Nat := 5

/-- `defaultTimeout` (5 minutes), in seconds. -/
def defaultTimeoutSeconds : Nat := 300

/-- `defaultNodeImage`. -/
def defaultNodeImage : String :=
  "kindest/node:v1.34.0@sha256:7416a61b42b1662ca6ca89f02028ac133a309a2a30ba309614e8ec94d976dc5a"

/-- The provisioning engine as seen by `Create`: the error of `provider.Create`
on each attempt (`none` = success) and of the best-effort `provider.Delete`
preceding each retry, indexed by retry number. -/
structure CreateEngine where
  createErr : Nat → Option String
  deleteErr : Nat → Option String

/-- Observable trace of the create retry loop: delete calls made, warnings
logged for failed deletes, sleeps performed, attempts run, and the final value
of `err` when the loop exits. -/
structure RetryTrace where
  deleteCalls : Nat
  deleteWarnings : List String
  sleepsSeconds : List Nat
  attemptsUsed : Nat
  finalErr : Option String
deriving DecidableEq, Repr

/-- The `for attempt := 0; attempt <= maxRetries; attempt++` loop of `Create`,
with fuel `maxRetries + 1 - attempt`: before each retry (attempt > 0) it calls
`provider.Delete` best-effort (a failure is logged as a warning only) and
sleeps `retryDelay`; it breaks at the first successful `provider.Create`. -/
def createRetryLoop (eng : CreateEngine) : Nat → Nat → Option String → RetryTrace
  | 0, _, lastErr => ⟨0, [], [], 0, lastErr⟩
  | fuel + 1, attempt, _ =>
      let pre : Nat × List String × List Nat :=
        if attempt > 0 then
          match eng.deleteErr (attempt - 1) with
          | some d => (1, ["Failed to delete cluster during retry: " ++ d],
                       [retryDelaySeconds])
          | none => (1, [], [retryDelaySeconds])
        else (0, [], [])
      match eng.createErr attempt with
      | none => ⟨pre.1, pre.2.1, pre.2.2, 1, none⟩
      | some e =>
          let rest := createRetryLoop eng fuel (attempt + 1) (some e)
          ⟨pre.1 + rest.deleteCalls, pre.2.1 ++ rest.deleteWarnings,
           pre.2.2 ++ rest.sleepsSeconds, rest.attemptsUsed + 1, rest.finalErr⟩

/-- Outcome of `Create`: the loop trace, the fatal diagnostic if any, and the
node image and id recorded into the resource state on success. -/
structure CreateResult where
  trace : RetryTrace
  diagError : Option (String × String)
  nodeImage : Option String
  id : Option String
deriving DecidableEq, Repr

/-- `ClusterResource.Create`, from the effective node image computation through
the retry loop to recording state: the node image defaults when unset; on
exhausting all attempts a fatal diagnostic names the cluster and the attempt
count; on success the effective node image and the deterministic id
`name + "-" + nodeImage` are recorded. (The subsequent `readClusterState` call
is outside the claims modelled here.) -/
def clusterCreate (eng : CreateEngine) (name userNodeImage : String) :
    CreateResult :=
  let nodeImage := if userNodeImage = "" then defaultNodeImage else userNodeImage
  let t := createRetryLoop eng (maxRetries + 1) 0 none
  match t.finalErr with
  | some e =>
      { trace := t
        diagError := some ("Error creating Kind cluster",
          "Could not create cluster " ++ name ++ " after " ++
            toString (maxRetries + 1) ++ " attempts: " ++ e)
        nodeImage := none
        id := none }
  | none =>
      { trace := t
        diagError := none
        nodeImage := some nodeImage
        id := some (name ++ "-" ++ nodeImage) }

/-- The error value in `Delete`'s select: either the provisioning engine's
deletion error or the distinguished `errDeleteTimeout` sentinel. -/
inductive DeleteRaceErr where
  | engineErr : String → DeleteRaceErr
  | timeout : DeleteRaceErr
deriving DecidableEq, Repr

/-- `errDeleteTimeout.Error()`: `fmt.Errorf("delete operation timed out after %v", defaultTimeout)`
with `defaultTimeout = 5 * time.Minute` formatting as `5m0s`. -/
def errDeleteTimeoutMsg : String := "delete operation timed out after 5m0s"

/-- The message of a delete-race error. -/
def deleteRaceErrMsg : DeleteRaceErr → String
  | DeleteRaceErr.engineErr e => e
  | DeleteRaceErr.timeout => errDeleteTimeoutMsg

/-- Denotation of the `select` racing the deletion goroutine against the
timeout context: the engine behavior is `some (t, res)` when `provider.Delete`
returns at time `t` (in seconds) with result `res`, or `none` when it never
returns. The first event to occur wins: the engine result if it returns before
the timeout, the timeout error at exactly `defaultTimeout` otherwise. Returns
elapsed seconds and the value of `err` after the select. -/
def deleteRace (engine : Option (Nat × Option String)) :
    Nat × Option DeleteRaceErr :=
  match engine with
  | none => (defaultTimeoutSeconds, some DeleteRaceErr.timeout)
  | some (t, res) =>
      if t < defaultTimeoutSeconds then (t, res.map DeleteRaceErr.engineErr)
      else (defaultTimeoutSeconds, some DeleteRaceErr.timeout)

/-- An on-disk kubeconfig document (`clientcmd` api.Config): contexts,
auth-infos and clusters as name-keyed entries, plus the current-context
marker. -/
structure KubeConfigDoc where
  contexts : List (String × String)
  authInfos : List (String × String)
  clusters : List (String × String)
  currentContext : String
deriving DecidableEq, Repr

/-- Go `delete(m, key)` on a name-keyed map. -/
def mapDelete (key : String) (l : List (String × String)) :
    List (String × String) :=
  l.filter fun p => p.1 != key

/-- Whether the document has a context entry named `contextName`. -/
def hasContext (contextName : String) (cfg : KubeConfigDoc) : Bool :=
  cfg.contexts.any fun p => p.1 == contextName

/-- The body of the rewrite done by `removeContext` once a matching context
exists: delete the context, auth-info and cluster entries under the name, and
clear the current-context marker when it matches. -/
def removeContextFrom (contextName : String) (cfg : KubeConfigDoc) :
    KubeConfigDoc :=
  { contexts := mapDelete contextName cfg.contexts
    authInfos := mapDelete contextName cfg.authInfos
    clusters := mapDelete contextName cfg.clusters
    currentContext :=
      if cfg.currentContext = contextName then "" else cfg.currentContext }

/-- The file system holding kubeconfig files: per path, either a load error
(`clientcmd.LoadFromFile` failure) or the document. -/
def FileSys : Type := String → Except String KubeConfigDoc

/-- `clientcmd.RecommendedHomeFile`, the default credential-store location. -/
def defaultKubeconfigPath : String := "$HOME/.kube/config"

/-- The `removeContext` helper inside `Delete`: load the file (a failure is a
logged warning only), do nothing when no matching context exists, otherwise
delete the entries and write the file back (a write failure is a logged
warning only; the file is then left in its prior state). Returns the updated
file system, the document whose write was attempted (if any), and the warnings
logged. -/
def removeContext (writeErr : String → Option String) (fs : FileSys)
    (configPath configType contextName : String) :
    FileSys × Option KubeConfigDoc × List String :=
  match fs configPath with
  | Except.error e =>
      (fs, none,
        ["Unable to load " ++ configType ++ " kubeconfig for context cleanup: " ++ e])
  | Except.ok config =>
      if hasContext contextName config then
        let config2 := removeContextFrom contextName config
        match writeErr configPath with
        | some e =>
            (fs, some config2,
              ["Unable to write " ++ configType ++ " kubeconfig to remove context: " ++ e])
        | none =>
            ((fun p => if p = configPath then Except.ok config2 else fs p),
              some config2, [])
      else (fs, none, [])

/-- The environment `Delete` runs against: the deletion call's behavior, the
initial on-disk kubeconfig files, and per-path write failures. -/
structure DeleteEnv where
  engine : Option (Nat × Option String)
  fs0 : FileSys
  writeErr : String → Option String

/-- Outcome of `Delete`. -/
structure DeleteResult where
  elapsedSeconds : Nat
  raceErr : Option DeleteRaceErr
  diagError : Option (String × String)
  warnings : List String
  defaultWrite : Option KubeConfigDoc
  customWrite : Option KubeConfigDoc
  fs : FileSys

/-- `ClusterResource.Delete`: race the deletion against the 5-minute timeout;
on any error report the fatal diagnostic naming the cluster; on success run the
best-effort context cleanup on the default credential store and, when a custom
kubeconfig path is recorded, on that file too. -/
def clusterDelete (env : DeleteEnv) (name kubeconfigPath : String) :
    DeleteResult :=
  let race := deleteRace env.engine
  match race.2 with
  | some e =>
      { elapsedSeconds := race.1
        raceErr := some e
        diagError := some ("Error deleting Kind cluster",
          "Could not delete cluster " ++ name ++ ": " ++ deleteRaceErrMsg e)
        warnings := []
        defaultWrite := none
        customWrite := none
        fs := env.fs0 }
  | none =>
      let contextName := "kind-" ++ name
      let r1 := removeContext env.writeErr env.fs0 defaultKubeconfigPath "default"
        contextName
      if kubeconfigPath ≠ "" then
        let r2 := removeContext env.writeErr r1.1 kubeconfigPath "custom" contextName
        { elapsedSeconds := race.1
          raceErr := none
          diagError := none
          warnings := r1.2.2 ++ r2.2.2
          defaultWrite := r1.2.1
          customWrite := r2.2.1
          fs := r2.1 }
      else
        { elapsedSeconds := race.1
          raceErr := none
          diagError := none
          warnings := r1.2.2
          defaultWrite := r1.2.1
          customWrite := none
          fs := r1.1 }

/-- The fatal creation message with the attempt count printed: `maxRetries + 1`
renders as `3`. -/
theorem createFailMsg_eq (name e : String) :
    "Could not create cluster " ++ name ++ " after " ++ toString (maxRetries + 1) ++
      " attempts: " ++ e =
    "Could not create cluster " ++ name ++ " after 3 attempts: " ++ e := by
  rw [show (toString (maxRetries + 1)) = "3" from rfl]
  rw [String.append_assoc ("Could not create cluster " ++ name ++ " after ") "3"
    " attempts: "]
  rw [show "3" ++ " attempts: " = "3 attempts: " from rfl]
  rw [String.append_assoc ("Could not create cluster " ++ name) " after "
    "3 attempts: "]
  rw [show " after " ++ "3 attempts: " = " after 3 attempts: " from rfl]

/-- Claim C1: `Create` retries provisioning up to 2 retries (3 total attempts);
when attempts `0..k-1` fail and attempt `k` succeeds (`k ≤ 2`), it completes
without a fatal diagnostic and records the effective node image (the
user-supplied value, or the default when unset); before each retry it performs
one best-effort delete (a failure is only a logged warning) and one fixed
5-second backoff sleep; when all 3 attempts fail it surfaces a fatal error
naming the cluster and the attempt count 3, and runs no further attempt. -/
theorem c1_create_retry (eng : CreateEngine) (name userNodeImage : String) :
    (∀ k, k ≤ maxRetries → (∀ i, i < k → (eng.createErr i).isSome) →
      eng.createErr k = none →
      (clusterCreate eng name userNodeImage).diagError = none ∧
      (clusterCreate eng name userNodeImage).nodeImage =
        some (if userNodeImage = "" then defaultNodeImage else userNodeImage) ∧
      (clusterCreate eng name userNodeImage).trace.attemptsUsed = k + 1 ∧
      (clusterCreate eng name userNodeImage).trace.deleteCalls = k ∧
      (clusterCreate eng name userNodeImage).trace.sleepsSeconds =
        List.replicate k retryDelaySeconds ∧
      (clusterCreate eng name userNodeImage).trace.deleteWarnings =
        ((List.range k).filterMap fun i =>
          (eng.deleteErr i).map
            (fun d => "Failed to delete cluster during retry: " ++ d))) ∧
    ((∀ i, i ≤ maxRetries → (eng.createErr i).isSome) →
      ∃ e, eng.createErr maxRetries = some e ∧
        (clusterCreate eng name userNodeImage).diagError =
          some ("Error creating Kind cluster",
            "Could not create cluster " ++ name ++ " after 3 attempts: " ++ e) ∧
        (clusterCreate eng name userNodeImage).trace.attemptsUsed = 3) := by
  constructor
  · intro k hk hfail hsucc
    simp only [maxRetries] at hk
    interval_cases k
    · simp [clusterCreate, createRetryLoop, hsucc, maxRetries]
    · obtain ⟨e0, he0⟩ := Option.isSome_iff_exists.mp (hfail 0 (by norm_num))
      cases hd : eng.deleteErr 0 <;>
        simp [clusterCreate, createRetryLoop, he0, hsucc, hd, maxRetries,
          List.range_succ]
    · obtain ⟨e0, he0⟩ := Option.isSome_iff_exists.mp (hfail 0 (by norm_num))
      obtain ⟨e1, he1⟩ := Option.isSome_iff_exists.mp (hfail 1 (by norm_num))
      cases hd0 : eng.deleteErr 0 <;> cases hd1 : eng.deleteErr 1 <;>
        simp [clusterCreate, createRetryLoop, he0, he1, hsucc, hd0, hd1,
          maxRetries, List.range_succ, List.replicate]
  · intro hfail
    obtain ⟨e0, he0⟩ := Option.isSome_iff_exists.mp (hfail 0 (by norm_num [maxRetries]))
    obtain ⟨e1, he1⟩ := Option.isSome_iff_exists.mp (hfail 1 (by norm_num [maxRetries]))
    obtain ⟨e2, he2⟩ := Option.isSome_iff_exists.mp (hfail 2 (by norm_num [maxRetries]))
    refine ⟨e2, by simpa [maxRetries] using he2, ?_, ?_⟩ <;>
      cases hd0 : eng.deleteErr 0 <;> cases hd1 : eng.deleteErr 1 <;>
        simp [clusterCreate, createRetryLoop, he0, he1, he2, hd0, hd1, maxRetries,
          ← createFailMsg_eq name e2]

/-- The engine used by the C1 witness: fails on attempts 0 and 1 and succeeds
on attempt 2, with the first best-effort delete failing. -/
def c1WitnessEngine : CreateEngine :=
  ⟨fun n => if n < 2 then some "transient failure" else none,
   fun n => if n = 0 then some "delete failed" else none⟩

/-- Witness for claim C1: an engine failing twice then succeeding on the third
attempt completes `Create` successfully and records the default node image. -/
theorem c1_create_retry_witness :
    ((2 : Nat) ≤ maxRetries ∧ c1WitnessEngine.createErr 2 = none) ∧
    (clusterCreate c1WitnessEngine "alpha" "").diagError = none ∧
    (clusterCreate c1WitnessEngine "alpha" "").nodeImage =
      some (if "" = "" then defaultNodeImage else "") ∧
    (clusterCreate c1WitnessEngine "alpha" "").trace.attemptsUsed = 3 := by
  have h := (c1_create_retry c1WitnessEngine "alpha" "").1 2 (by decide)
    (fun i hi => by interval_cases i <;> decide) (by decide)
  exact ⟨⟨by decide, by decide⟩, h.1, h.2.1, h.2.2.1⟩

/-- Claim C2: `Delete` races the deletion call against the fixed 5-minute
timeout. If the deletion call never returns, the outcome is the fatal timeout
error at exactly the timeout duration; if it returns before the timeout, its
result (error or success) becomes the outcome at that moment; and the timeout
error is distinguishable from a provisioning-engine-reported deletion
failure. -/
theorem c2_delete_timeout_race (env : DeleteEnv) (name kubeconfigPath : String) :
    (env.engine = none →
      (clusterDelete env name kubeconfigPath).elapsedSeconds = defaultTimeoutSeconds ∧
      (clusterDelete env name kubeconfigPath).raceErr = some DeleteRaceErr.timeout ∧
      (clusterDelete env name kubeconfigPath).diagError =
        some ("Error deleting Kind cluster",
          "Could not delete cluster " ++ name ++ ": " ++ errDeleteTimeoutMsg)) ∧
    (∀ t res, env.engine = some (t, res) → t < defaultTimeoutSeconds →
      (clusterDelete env name kubeconfigPath).elapsedSeconds = t ∧
      (clusterDelete env name kubeconfigPath).raceErr =
        res.map DeleteRaceErr.engineErr ∧
      (∀ e, res = some e →
        (clusterDelete env name kubeconfigPath).diagError =
          some ("Error deleting Kind cluster",
            "Could not delete cluster " ++ name ++ ": " ++ e)) ∧
      (res = none → (clusterDelete env name kubeconfigPath).diagError = none)) ∧
    (∀ e, DeleteRaceErr.timeout ≠ DeleteRaceErr.engineErr e) := by
  refine ⟨?_, ?_, fun e h => by cases h⟩
  · intro h
    simp [clusterDelete, deleteRace, h, deleteRaceErrMsg]
  · intro t res h ht
    cases res with
    | none =>
        refine ⟨?_, ?_, ?_, ?_⟩
        · by_cases hp : kubeconfigPath = "" <;>
            simp [clusterDelete, deleteRace, h, if_pos ht, hp]
        · by_cases hp : kubeconfigPath = "" <;>
            simp [clusterDelete, deleteRace, h, if_pos ht, hp]
        · intro e he
          exact Option.noConfusion he
        · intro hres
          by_cases hp : kubeconfigPath = "" <;>
            simp [clusterDelete, deleteRace, h, if_pos ht, hp]
    | some e =>
        refine ⟨?_, ?_, ?_, ?_⟩
        · simp [clusterDelete, deleteRace, h, if_pos ht, deleteRaceErrMsg]
        · simp [clusterDelete, deleteRace, h, if_pos ht, deleteRaceErrMsg]
        · intro e2 he2
          cases he2
          simp [clusterDelete, deleteRace, h, if_pos ht, deleteRaceErrMsg]
        · intro hres
          exact Option.noConfusion hres

/-- Witness for claim C2: a deletion call that never returns yields the timeout
diagnostic at exactly 300 seconds, and the timeout error differs from every
engine-reported error. -/
theorem c2_delete_timeout_race_witness :
    DeleteResult.elapsedSeconds
        (clusterDelete ⟨none, fun _ => Except.error "nofile", fun _ => none⟩ "alpha" "") =
      defaultTimeoutSeconds ∧
    DeleteResult.diagError
        (clusterDelete ⟨none, fun _ => Except.error "nofile", fun _ => none⟩ "alpha" "") =
      some ("Error deleting Kind cluster",
        "Could not delete cluster " ++ "alpha" ++ ": " ++ errDeleteTimeoutMsg) ∧
    DeleteRaceErr.timeout ≠ DeleteRaceErr.engineErr "boom" := by
  have h := c2_delete_timeout_race
    ⟨none, fun _ => Except.error "nofile", fun _ => none⟩ "alpha" ""
  exact ⟨(h.1 rfl).1, (h.1 rfl).2.2, h.2.2 "boom"⟩

/-- Claim C3: when the deletion call succeeds, the context cleanup keyed
`kind-<name>` is attempted independently on both the default credential-store
file and the recorded custom kubeconfig path; a failure to load either file is
a warning only and `Delete` still reports success; and when the removed context
matches the current-context marker, the marker is cleared. -/
theorem c3_delete_cleanup_best_effort (env : DeleteEnv)
    (name kubeconfigPath : String) (t : Nat)
    (heng : env.engine = some (t, none)) (ht : t < defaultTimeoutSeconds)
    (hpath : kubeconfigPath ≠ "") :
    (clusterDelete env name kubeconfigPath).diagError = none ∧
    (∀ e1 e2, env.fs0 defaultKubeconfigPath = Except.error e1 →
      env.fs0 kubeconfigPath = Except.error e2 →
      (clusterDelete env name kubeconfigPath).warnings =
        ["Unable to load default kubeconfig for context cleanup: " ++ e1,
         "Unable to load custom kubeconfig for context cleanup: " ++ e2]) ∧
    (∀ cfg, env.fs0 defaultKubeconfigPath = Except.ok cfg →
      hasContext ("kind-" ++ name) cfg = true →
      (clusterDelete env name kubeconfigPath).defaultWrite =
        some (removeContextFrom ("kind-" ++ name) cfg) ∧
      (cfg.currentContext = "kind-" ++ name →
        (removeContextFrom ("kind-" ++ name) cfg).currentContext = "")) ∧
    (∀ e1 cfg, env.fs0 defaultKubeconfigPath = Except.error e1 →
      env.fs0 kubeconfigPath = Except.ok cfg →
      hasContext ("kind-" ++ name) cfg = true →
      (clusterDelete env name kubeconfigPath).customWrite =
        some (removeContextFrom ("kind-" ++ name) cfg)) := by
  refine ⟨?_, ?_, ?_, ?_⟩
  · simp [clusterDelete, deleteRace, heng, if_pos ht, hpath]
  · intro e1 e2 h1 h2
    simp [clusterDelete, deleteRace, heng, if_pos ht, hpath, removeContext, h1, h2]
  · intro cfg h1 hctx
    constructor
    · simp only [clusterDelete, deleteRace, heng, if_pos ht, removeContext, h1, hctx]
      cases hw : env.writeErr defaultKubeconfigPath <;> simp [hw, hctx, hpath]
    · intro hcc
      simp [removeContextFrom, hcc]
  · intro e1 cfg h1 h2 hctx
    simp only [clusterDelete, deleteRace, heng, if_pos ht, removeContext, h1, h2, hctx]
    cases hw : env.writeErr kubeconfigPath <;> simp [hw, hctx, hpath]

/-- The kubeconfig document used by the C3 and C10 witnesses. -/
def witnessDoc : KubeConfigDoc :=
  { contexts := [("kind-a", "c1"), ("other", "c2")]
    authInfos := [("kind-a", "u1"), ("other", "u2")]
    clusters := [("kind-a", "k1"), ("other", "k2")]
    currentContext := "kind-a" }

/-- The file system used by the C3 witness: the default store is unreadable,
the custom path holds `witnessDoc`. -/
def c3WitnessFs : FileSys :=
  fun p => if p = "/kc" then Except.ok witnessDoc else Except.error "permission denied"

/-- Witness for claim C3: deletion succeeds, the default store is unreadable,
yet delete reports success and the custom file's cleanup is still performed. -/
theorem c3_delete_cleanup_best_effort_witness :
    (clusterDelete ⟨some (10, none), c3WitnessFs, fun _ => none⟩ "a" "/kc").diagError =
      none ∧
    (clusterDelete ⟨some (10, none), c3WitnessFs, fun _ => none⟩ "a" "/kc").customWrite =
      some (removeContextFrom ("kind-" ++ "a") witnessDoc) := by
  have h := c3_delete_cleanup_best_effort
    ⟨some (10, none), c3WitnessFs, fun _ => none⟩ "a" "/kc" 10 rfl (by decide)
    (by decide)
  refine ⟨h.1, ?_⟩
  exact h.2.2.2 "permission denied" witnessDoc rfl rfl (by decide)

/-- Claim C10: after a successful deletion, the cleanup helper leaves a
kubeconfig file unmodified (no write attempted) whenever the file fails to load
or contains no context named `kind-<clusterName>`; the file is rewritten only
when a matching context exists, and then exactly the context, user and cluster
entries under that name (plus, when matching, the current-context marker) are
removed. -/
theorem c10_remove_context_frame (writeErr : String → Option String)
    (fs : FileSys) (path ctype ctx : String) :
    (∀ e, fs path = Except.error e →
      removeContext writeErr fs path ctype ctx =
        (fs, none,
          ["Unable to load " ++ ctype ++ " kubeconfig for context cleanup: " ++ e])) ∧
    (∀ cfg, fs path = Except.ok cfg → hasContext ctx cfg = false →
      removeContext writeErr fs path ctype ctx = (fs, none, [])) ∧
    (∀ cfg, fs path = Except.ok cfg → hasContext ctx cfg = true →
      (removeContext writeErr fs path ctype ctx).2.1 =
        some (removeContextFrom ctx cfg) ∧
      (writeErr path = none →
        (removeContext writeErr fs path ctype ctx).1 path =
          Except.ok (removeContextFrom ctx cfg) ∧
        ∀ p, p ≠ path → (removeContext writeErr fs path ctype ctx).1 p = fs p) ∧
      (∀ v, (ctx, v) ∉ (removeContextFrom ctx cfg).contexts ∧
            (ctx, v) ∉ (removeContextFrom ctx cfg).authInfos ∧
            (ctx, v) ∉ (removeContextFrom ctx cfg).clusters) ∧
      (∀ kv, kv.1 ≠ ctx →
        ((kv ∈ cfg.contexts ↔ kv ∈ (removeContextFrom ctx cfg).contexts) ∧
         (kv ∈ cfg.authInfos ↔ kv ∈ (removeContextFrom ctx cfg).authInfos) ∧
         (kv ∈ cfg.clusters ↔ kv ∈ (removeContextFrom ctx cfg).clusters))) ∧
      ((cfg.currentContext = ctx → (removeContextFrom ctx cfg).currentContext = "") ∧
       (cfg.currentContext ≠ ctx →
         (removeContextFrom ctx cfg).currentContext = cfg.currentContext))) := by
  refine ⟨?_, ?_, ?_⟩
  · intro e he
    simp [removeContext, he]
  · intro cfg hok hno
    simp [removeContext, hok, hno]
  · intro cfg hok hyes
    refine ⟨?_, ?_, ?_, ?_, ?_, ?_⟩
    · simp only [removeContext, hok, hyes, if_pos]
      cases hw : writeErr path <;> simp [hw]
    · intro hw
      refine ⟨?_, ?_⟩
      · simp [removeContext, hok, hyes, hw]
      · intro p hp
        simp [removeContext, hok, hyes, hw, hp]
    · intro v
      refine ⟨?_, ?_, ?_⟩ <;>
        simp [removeContextFrom, mapDelete, List.mem_filter]
    · intro kv hkv
      refine ⟨?_, ?_, ?_⟩ <;>
        simp [removeContextFrom, mapDelete, List.mem_filter, hkv]
    · intro hcc
      simp [removeContextFrom, hcc]
    · intro hcc
      simp [removeContextFrom, hcc]

/-- Witness for claim C10: a load failure leaves the file system untouched with
a warning; a matching context leads to a write with exactly the `kind-a`
entries removed and the marker cleared. -/
theorem c10_remove_context_frame_witness :
    removeContext (fun _ => none) (fun _ => Except.error "worldly")
        "/kc" "custom" "kind-a" =
      ((fun _ => Except.error "worldly"), none,
        ["Unable to load " ++ "custom" ++ " kubeconfig for context cleanup: " ++
          "worldly"]) ∧
    (removeContext (fun _ => none) (fun _ => Except.ok witnessDoc)
        "/kc" "custom" "kind-a").2.1 = some (removeContextFrom "kind-a" witnessDoc) ∧
    ("kind-a", "c1") ∉ (removeContextFrom "kind-a" witnessDoc).contexts ∧
    (removeContextFrom "kind-a" witnessDoc).currentContext = "" := by
  have h1 := (c10_remove_context_frame (fun _ => none)
    (fun _ => Except.error "worldly") "/kc" "custom" "kind-a").1 "worldly" rfl
  have h2 := (c10_remove_context_frame (fun _ => none)
    (fun _ => Except.ok witnessDoc) "/kc" "custom" "kind-a").2.2 witnessDoc rfl
    (by decide)
  exact ⟨h1, h2.1, (h2.2.2.1 "c1").1, h2.2.2.2.2.1 (by decide)⟩

end TPKind
